import Mathlib

/-!
Shallow embedding of the tool-routing / adapter layer of the `hei-demo`
repository (Python), together with theorems settling the specification
claims about it.  Each definition is a direct translation of the Python
function of the same name; external effects (environment variables, HTTP
responses, the filesystem) are passed in explicitly as arguments.
-/

namespace HeiDemo

/-- Outcome of calling a Python function: either it returns a value or it
raises an exception carrying a message. -/
inductive PyOutcome (α : Type) where
  | ok (v : α)
  | exn (msg : String)
deriving Repr, DecidableEq

/-- `true` iff the outcome is a raised exception. -/
def PyOutcome.raises {α : Type} : PyOutcome α → Bool
  | .ok _ => false
  | .exn _ => true

/-- Emptiness of a string, computed on its character list. -/
def strIsEmpty (s : String) : Bool :=
  s.data.isEmpty

/-- Python `str.isdigit()` (restricted to ASCII digits, which is what
TripAdvisor location IDs use): nonempty and every character a digit. -/
def pyIsDigit (s : String) : Bool :=
  !strIsEmpty s && s.data.all Char.isDigit

/-- Python truthiness test `if not x` for an optional string environment
variable: true when the variable is unset or the empty string. -/
def pyFalsyStr : Option String → Bool
  | none => true
  | some s => strIsEmpty s

/-- Python `str.strip()` (restricted to the usual whitespace characters):
drop leading and trailing whitespace. -/
def pyStrip (s : String) : String :=
  String.mk (((s.data.dropWhile Char.isWhitespace).reverse.dropWhile
    Char.isWhitespace).reverse)

/-- Python `str.lower()` (ASCII case folding). -/
def pyLower (s : String) : String :=
  String.mk (s.data.map Char.toLower)

/-- Python `str.endswith(suffix)`. -/
def pyEndsWith (s suffix : String) : Bool :=
  suffix.data.isSuffixOf s.data

/-- Python `sep.join(parts)`. -/
def pyJoin (sep : String) : List String → String
  | [] => ""
  | [x] => x
  | x :: xs => x ++ sep ++ pyJoin sep xs

/-- Split a character list at every occurrence of the character `c`
(used to model the path splitting behind `os.path.basename`). -/
def splitOnChar (c : Char) : List Char → List (List Char)
  | [] => [[]]
  | x :: xs =>
      let r := splitOnChar c xs
      if x == c then [] :: r
      else (x :: r.headD []) :: r.tail

/-- A single-quote character, used inside the adapter error messages. -/
def apos : String := String.singleton (Char.ofNat 39)

/-- Data model for a TripAdvisor review (`ReviewData` in
`app/engine/tools/tripadvisor.py`). -/
structure ReviewData where
  rating : Int
  title : String
  text : String
  published_date : String
  username : String
  language : String
deriving Repr, DecidableEq

/-- Response model for TripAdvisor data (`TripAdvisorResponse`).
Floats are modelled as rationals. -/
structure TripAdvisorResponse where
  location_id : String
  reviews : List ReviewData
  average_rating : Option ℚ
  total_reviews : Option Int
deriving Repr, DecidableEq

/-- The empty response the adapter returns on every non-success path. -/
def emptyTAResponse (location_id : String) : TripAdvisorResponse :=
  { location_id := location_id
    reviews := []
    average_rating := some 0
    total_reviews := some 0 }

/-- A raw review entry of the JSON `data` array: either its fields coerce
into a `ReviewData` (the inner `try` succeeds) or constructing the model
raises and the entry is skipped with a logged message. -/
inductive RawReview where
  | parsed (r : ReviewData)
  | malformed (msg : String)
deriving Repr, DecidableEq

/-- Result of one HTTP round trip, supplied to an adapter as an oracle:
a parsed 2xx body, a non-2xx status (on which `raise_for_status` raises a
`RequestException` that carries the response), a transport failure with no
response object, or any other unexpected exception inside the `try` body. -/
inductive HttpOutcome (α : Type) where
  | success (body : α)
  | httpError (status : Nat) (msg : String)
  | transportError (msg : String)
  | otherError (msg : String)
deriving Repr, DecidableEq

/-- `true` on the 2xx constructor only. -/
def HttpOutcome.isSuccess {α : Type} : HttpOutcome α → Bool
  | .success _ => true
  | _ => false

/-- Log message for a non-numeric location ID
(`tripadvisor.py`, validation branch 1). -/
def invalidFormatMsg (location_id : String) : String :=
  "Invalid TripAdvisor ID format. Expected a numeric ID, got: " ++ apos ++
    location_id ++ apos ++
    ". You must first use the search_venues_by_name tool to get the correct TripAdvisor ID."

/-- Log message for a numeric location ID of out-of-bound length
(`tripadvisor.py`, validation branch 2). -/
def invalidLengthMsg (location_id : String) : String :=
  "Invalid TripAdvisor ID length. Expected 5-10 digits, got: " ++
    toString location_id.length ++
    " digits. This doesn" ++ apos ++ "t look like a valid TripAdvisor ID. " ++
    "Street numbers and other numeric values are not valid TripAdvisor IDs."

/-- Log message when the TripAdvisor API key is missing. -/
def missingTAKeyMsg : String :=
  "TRIPADVISOR_API_KEY environment variable is not set"

/-- The review-processing loop of `get_tripadvisor_reviews`: accumulates the
successfully parsed reviews in order, the running `total_rating`, and the
log lines produced for skipped entries. -/
def processReviews : List RawReview → List ReviewData × Int × List String
  | [] => ([], 0, [])
  | .parsed r :: rest =>
      let (rs, t, ls) := processReviews rest
      (r :: rs, r.rating + t, ls)
  | .malformed m :: rest =>
      let (rs, t, ls) := processReviews rest
      (rs, t, ("Error processing review data: " ++ m) :: ls)

/-- Python `round(x, 1)`: rounding to one decimal place.  (Python uses
round-half-even on binary floats; no theorem below depends on the
behaviour at exact ties, so nearest-integer rounding of `10*x` is used.) -/
def round1 (q : ℚ) : ℚ := (round (10 * q) : ℤ) / 10

/-- Result of a call to the reviews adapter: whether `requests.get` was
reached, the `logger.error` lines emitted, and the Python outcome. -/
structure TACall where
  networkCall : Bool
  logs : List String
  outcome : PyOutcome TripAdvisorResponse
deriving Repr, DecidableEq

/-- Shallow embedding of `get_tripadvisor_reviews` from
`app/engine/tools/tripadvisor.py`.  `apiKey` is the value of the
`TRIPADVISOR_API_KEY` environment variable and `http` the outcome of the
one HTTP request the function can make (consulted only when the request is
actually issued). -/
def get_tripadvisor_reviews (location_id : String) (limit : Int)
    (apiKey : Option String) (http : HttpOutcome (List RawReview)) : TACall :=
  if !pyIsDigit location_id then
    { networkCall := false
      logs := [invalidFormatMsg location_id]
      outcome := .ok (emptyTAResponse location_id) }
  else if location_id.length < 5 || location_id.length > 10 then
    { networkCall := false
      logs := [invalidLengthMsg location_id]
      outcome := .ok (emptyTAResponse location_id) }
  else if pyFalsyStr apiKey then
    { networkCall := false
      logs := [missingTAKeyMsg]
      outcome := .ok (emptyTAResponse location_id) }
  else
    match http with
    | .success reviews_data =>
        let (reviews, total_rating, revLogs) := processReviews reviews_data
        let average_rating : ℚ :=
          if reviews.isEmpty then 0 else (total_rating : ℚ) / (reviews.length : ℚ)
        { networkCall := true
          logs := revLogs
          outcome := .ok
            { location_id := location_id
              reviews := reviews
              average_rating := some (round1 average_rating)
              total_reviews := some (reviews.length : Int) } }
    | .httpError status msg =>
        let error_msg :=
          if status = 401 then
            "Invalid TripAdvisor API key. Please check your API key."
          else if status = 404 then
            "Location ID " ++ location_id ++ " not found on TripAdvisor."
          else if status = 429 then
            "Rate limit exceeded. Please try again later."
          else msg
        { networkCall := true
          logs := ["Error fetching TripAdvisor reviews: " ++ error_msg]
          outcome := .ok (emptyTAResponse location_id) }
    | .transportError msg =>
        { networkCall := true
          logs := ["Error fetching TripAdvisor reviews: " ++ msg]
          outcome := .ok (emptyTAResponse location_id) }
    | .otherError msg =>
        { networkCall := true
          logs := ["Unexpected error fetching TripAdvisor reviews: " ++ msg]
          outcome := .ok (emptyTAResponse location_id) }

/-- Results from Bing search (`BingSearchResults` in
`app/engine/tools/bing_search.py`). -/
structure BingSearchResults where
  query : String
  results : List String
deriving Repr, DecidableEq

/-- One entry of `webPages.value` in the Bing JSON body. -/
structure BingPage where
  name : String
  snippet : String
deriving Repr, DecidableEq

/-- One entry of `news.value` in the Bing JSON body. -/
structure BingNews where
  name : String
  description : String
deriving Repr, DecidableEq

/-- The parsed Bing JSON body: the optional `webPages.value` and
`news.value` arrays. -/
structure BingJson where
  webPages : Option (List BingPage)
  news : Option (List BingNews)
deriving Repr, DecidableEq

/-- Python list slicing `l[:k]` for an `int` bound `k` (negative bounds
count from the end). -/
def pySliceTo {α : Type} (k : Int) (l : List α) : List α :=
  if 0 ≤ k then l.take k.toNat else l.take ((l.length : Int) + k).toNat

/-- Result of a call to the web-search adapter: whether `requests.get` was
reached and the Python outcome (this adapter does no logging). -/
structure BingCall where
  networkCall : Bool
  outcome : PyOutcome BingSearchResults
deriving Repr, DecidableEq

/-- Shallow embedding of `bing_search` from `app/engine/tools/bing_search.py`.
`subscriptionKey` is the `BING_SEARCH_KEY` environment variable and `http`
the outcome of the one HTTP request.  On a transport failure with no bound
`response` variable, the `except` block itself fails looking up
`response.status_code`, so a `NameError` propagates. -/
def bing_search (query : String) (k : Int) (subscriptionKey : Option String)
    (http : HttpOutcome BingJson) : BingCall :=
  if pyFalsyStr subscriptionKey then
    { networkCall := false
      outcome := .exn "BING_SEARCH_KEY environment variable is not set" }
  else
    match http with
    | .success j =>
        let results :=
          match j.webPages with
          | some pages =>
              (pySliceTo k pages).map (fun (p : BingPage) => p.name ++ ": " ++ p.snippet)
          | none => []
        let results :=
          if results.isEmpty then
            match j.news with
            | some items =>
                (pySliceTo k items).map
                  (fun (n : BingNews) => "[News] " ++ n.name ++ ": " ++ n.description)
            | none => results
          else results
        { networkCall := true
          outcome := .ok { query := query, results := results } }
    | .httpError status msg =>
        let error_msg :=
          if status = 401 then
            "Invalid or expired Bing Search API key. Please check your API key."
          else if status = 403 then
            "Access denied. Please check if your API key has the correct permissions."
          else if status = 429 then
            "Rate limit exceeded. Please try again later."
          else msg
        { networkCall := true
          outcome := .exn ("Error performing Bing search: " ++ error_msg) }
    | .transportError _ =>
        { networkCall := true
          outcome := .exn "NameError: name response is not defined" }
    | .otherError msg =>
        { networkCall := true
          outcome := .exn msg }

/-- An opaque handle to persisted index state (`StorageContext`), tagged
with the directory it was loaded from and the time it was constructed, so
that two loads of the same directory at different times are distinguishable
values. -/
structure StorageContext where
  persistDir : String
  createdAt : Nat
deriving Repr, DecidableEq

/-- The memoisation key of `get_storage_context`
(`app/engine/index.py`): `"storage_context_" + persist_dir`. -/
def storageContextKey (persist_dir : String) : String :=
  "storage_context_" ++ persist_dir

/-- `TTLCache(maxsize=20, ...)` in `app/engine/index.py`. -/
def cacheMaxsize : Nat := 20

/-- `ttl=timedelta(minutes=5).total_seconds()` in `app/engine/index.py`. -/
def cacheTTL : Nat := 300

/-- State of the `cachetools.TTLCache` behind `get_storage_context`:
entries `(key, value, insertion time)` in insertion order.  An entry is
live at time `now` while `now < insertion + ttl`. -/
structure TTLCacheState where
  entries : List (String × StorageContext × Nat)
deriving Repr, DecidableEq

/-- Liveness of a cache entry at time `now` (cachetools expires an item
once `ttl` seconds have passed since its insertion). -/
def entryLive (now : Nat) (e : String × StorageContext × Nat) : Bool :=
  now < e.2.2 + cacheTTL

/-- Shallow embedding of the memoised `get_storage_context`
(`app/engine/index.py`), with the `cachetools.TTLCache` decorator modelled
explicitly: a live entry under the key is returned unchanged; otherwise
`StorageContext.from_defaults(persist_dir)` constructs a fresh context,
expired entries are dropped, the oldest entries are evicted if the cache
is full, and the fresh context is inserted at time `now`. -/
def get_storage_context (persist_dir : String) (now : Nat)
    (st : TTLCacheState) : StorageContext × TTLCacheState :=
  let key := storageContextKey persist_dir
  match st.entries.find? (fun e => e.1 == key && entryLive now e) with
  | some e => (e.2.1, st)
  | none =>
      let ctx : StorageContext := { persistDir := persist_dir, createdAt := now }
      let live := st.entries.filter (entryLive now)
      let trimmed :=
        if cacheMaxsize ≤ live.length then live.drop (live.length + 1 - cacheMaxsize)
        else live
      (ctx, { entries := trimmed ++ [(key, ctx, now)] })

/-- A scalar metadata value: the loader stores strings and (for the row
index) Python ints. -/
inductive MetaVal where
  | s (v : String)
  | i (v : Int)
deriving Repr, DecidableEq

/-- A unit of retrievable text with its metadata mapping
(`llama_index.core.Document` as used by this repository).  The metadata
dict is modelled as an association list in insertion order with unique
keys. -/
structure Document where
  text : String
  metadata : List (String × MetaVal)
deriving Repr, DecidableEq

/-- `doc.metadata.get(key)`. -/
def metaGet (doc : Document) (key : String) : Option MetaVal :=
  (doc.metadata.find? (fun p => p.1 == key)).map (fun p => p.2)

/-- `metadata[key] = v` on a Python dict: replace the value if the key is
present, otherwise append the new binding. -/
def metaSet (m : List (String × MetaVal)) (key : String) (v : MetaVal) :
    List (String × MetaVal) :=
  if m.any (fun p => p.1 == key) then
    m.map (fun p => if p.1 == key then (p.1, v) else p)
  else m ++ [(key, v)]

/-- The closed index-type enumeration (`IndexType` in `app/engine/index.py`). -/
inductive IndexType where
  | general
  | venue
deriving Repr, DecidableEq

/-- The `.value` string of each enumeration member. -/
def IndexType.value : IndexType → String
  | .general => "general"
  | .venue => "venue"

/-- `get_storage_path` from `app/engine/index.py`: one subdirectory of the
base storage directory per index type (`os.path.join` modelled as a `/`
join).  `baseDir` is the `STORAGE_DIR` environment variable (default
`"storage"`). -/
def get_storage_path (baseDir : String) (index_type : IndexType) : String :=
  match index_type with
  | .venue => baseDir ++ "/venue"
  | .general => baseDir ++ "/general"

/-- The observable effect of `generate_index` (`app/engine/generate.py`):
the storage directory persisted to, the chunk size given to the node
parser, and the documents handed to `VectorStoreIndex.from_documents`
after the `private` metadata tagging loop. -/
structure IndexBuild where
  storageDir : String
  chunkSize : Nat
  docs : List Document
deriving Repr, DecidableEq

/-- Shallow embedding of `generate_index` from `app/engine/generate.py`:
tags every document with `metadata["private"] = "false"`, selects the
chunk size (4096 for the venue index, 1024 otherwise) and builds/persists
the index in the type's storage directory. -/
def generate_index (baseDir : String) (documents : List Document)
    (index_type : IndexType) : IndexBuild :=
  { storageDir := get_storage_path baseDir index_type
    chunkSize := if index_type = .venue then 4096 else 1024
    docs := documents.map
      (fun doc => { doc with metadata := metaSet doc.metadata "private" (.s "false") }) }

/-- The `type == "row"` metadata test used by `generate_datasource` to
split venue rows from general documents. -/
def isRowDoc (doc : Document) : Bool :=
  metaGet doc "type" == some (.s "row")

/-- Shallow embedding of `generate_datasource` from
`app/engine/generate.py`: with an explicit index type it builds that index
from all documents; otherwise it partitions the documents by the
`type == "row"` tag and builds the venue and/or general index from the
corresponding nonempty part. -/
def generate_datasource (baseDir : String) (documents : List Document)
    (index_type : Option IndexType) : List (IndexType × IndexBuild) :=
  match index_type with
  | some t => [(t, generate_index baseDir documents t)]
  | none =>
      let venue_docs := documents.filter (fun doc => isRowDoc doc)
      let general_docs := documents.filter (fun doc => !isRowDoc doc)
      (if venue_docs.isEmpty then []
       else [(IndexType.venue, generate_index baseDir venue_docs .venue)]) ++
      (if general_docs.isEmpty then []
       else [(IndexType.general, generate_index baseDir general_docs .general)])

/-- The build recorded for a given index type in the result of
`generate_datasource`, if any. -/
def buildFor (builds : List (IndexType × IndexBuild)) (t : IndexType) :
    Option IndexBuild :=
  (builds.find? (fun b => b.1 == t)).map (fun b => b.2)

/-- A tabular file as seen by the loader after `pd.read_csv`: header
columns and data rows, every cell already rendered as `str(value)` (rows
are aligned with the columns). -/
structure CsvFrame where
  columns : List String
  rows : List (List String)
deriving Repr, DecidableEq

/-- `row[col]` on one data row: the cell under the given column label. -/
def cellStr (columns row : List String) (col : String) : String :=
  match (columns.zip row).find? (fun p => p.1 == col) with
  | some p => p.2
  | none => ""

/-- `os.path.basename`: the part of the path after the last `/`. -/
def basenameOf (path : String) : String :=
  String.mk ((splitOnChar '/' path.data).getLastD [])

/-- The stem part of `os.path.splitext` on a base name: cut at the last
dot, except that a name whose characters before that dot are all dots has
no extension. -/
def splitextStem (base : String) : String :=
  let cs := base.data
  match ((List.range cs.length).filter (fun i => cs.getD i ' ' == '.')).getLast? with
  | none => base
  | some i =>
      if (List.range i).all (fun j => cs.getD j ' ' == '.') then base
      else String.mk (cs.take i)

/-- `os.path.splitext(os.path.basename(file_path))[0]` as computed by
`process_csv_file`. -/
def fileNameOf (path : String) : String :=
  splitextStem (basenameOf path)

/-- The venue-name column candidates of `process_csv_file`, tried in
order. -/
def venueNameCols : List String := ["OutletName", "Venue Name", "g_name"]

/-- The venue-name loop of `process_csv_file`: the first candidate column
that is present in the frame and whose stripped cell value is nonempty
(the loop `break`s only once a nonempty value is found). -/
def findVenueName (columns row : List String) : List String → Option String
  | [] => none
  | c :: rest =>
      if columns.contains c then
        let value := pyStrip (cellStr columns row c)
        if strIsEmpty value then findVenueName columns row rest else some value
      else findVenueName columns row rest

/-- The per-row body of `process_csv_file`
(`app/engine/loaders/csv_loader.py`): builds the metadata dict and the
content lines for the data row at (zero-based) index `idx`. -/
def processRow (columns : List String) (file_name : String) (idx : Nat)
    (row : List String) : Document :=
  let metadata : List (String × MetaVal) :=
    [("src", .s file_name), ("idx", .i (idx : Int)), ("type", .s "row")]
  let tripadvisor_id := pyStrip (cellStr columns row "TripAdvisor ID")
  let hasTid := columns.contains "TripAdvisor ID" && !strIsEmpty tripadvisor_id
  let parts_tid : List String :=
    if hasTid then
      ["TripAdvisor ID: " ++ tripadvisor_id,
       "The TripAdvisor location ID for this venue is " ++ tripadvisor_id,
       "To get TripAdvisor reviews, use ID: " ++ tripadvisor_id,
       ""]
    else []
  let metadata :=
    if hasTid then metaSet metadata "tripadvisor_id" (.s tripadvisor_id) else metadata
  let parts_name : List String :=
    match findVenueName columns row venueNameCols with
    | some value => ["Venue Name: " ++ value, ""]
    | none => []
  let metadata :=
    match findVenueName columns row venueNameCols with
    | some value => metaSet metadata "venue_name" (.s value)
    | none => metadata
  let parts_rest : List String :=
    columns.filterMap (fun col =>
      let value := pyStrip (cellStr columns row col)
      if !strIsEmpty value && col != "TripAdvisor ID" then some (col ++ ": " ++ value)
      else none)
  { text := pyJoin "\n" (parts_tid ++ parts_name ++ parts_rest)
    metadata := metadata }

/-- The row loop of `process_csv_file`: one `Document` per data row, in
order, with `idx` the row's position (pandas default `RangeIndex`). -/
def rowDocuments (file_name : String) (df : CsvFrame) : List Document :=
  df.rows.enum.map (fun p => processRow df.columns file_name p.1 p.2)

/-- Shallow embedding of `process_csv_file`
(`app/engine/loaders/csv_loader.py`).  `readCsv` is the outcome of
`pd.read_csv(file_path)`; a parse failure is logged and re-raised by the
surrounding `try`/`except`. -/
def process_csv_file (file_path : String) (readCsv : Except String CsvFrame) :
    Except String (List Document) :=
  match readCsv with
  | .error e => .error e
  | .ok df => .ok (rowDocuments (fileNameOf file_path) df)

instance {ε α : Type} [DecidableEq ε] [DecidableEq α] : DecidableEq (Except ε α) :=
  fun a b =>
    match a, b with
    | .ok x, .ok y =>
        if h : x = y then .isTrue (by rw [h])
        else .isFalse (by intro he; cases he; exact h rfl)
    | .ok _, .error _ => .isFalse (by intro he; cases he)
    | .error _, .ok _ => .isFalse (by intro he; cases he)
    | .error x, .error y =>
        if h : x = y then .isTrue (by rw [h])
        else .isFalse (by intro he; cases he; exact h rfl)

/-- One file of the data directory, as seen by `get_file_documents`: its
path plus the outcome each extraction route would produce on it
(`pd.read_csv` for the CSV route, `SimpleDirectoryReader` for every other
file); the route actually consulted is chosen by the file extension. -/
structure SrcFile where
  path : String
  readCsv : Except String CsvFrame
  readGeneric : Except String (List Document)
deriving Repr, DecidableEq

/-- The extension test of `get_file_documents`:
`file.lower().endswith(".csv")`. -/
def SrcFile.isCsv (f : SrcFile) : Bool :=
  pyEndsWith (pyLower f.path) ".csv"

/-- The `SimpleDirectoryReader` pass over the non-CSV files: concatenates
their documents in order, aborting on the first extraction error. -/
def readerDocs : List SrcFile → Except String (List Document)
  | [] => .ok []
  | f :: rest =>
      match f.readGeneric with
      | .error e => .error e
      | .ok ds =>
          match readerDocs rest with
          | .error e => .error e
          | .ok rest' => .ok (ds ++ rest')

/-- The CSV pass: runs `process_csv_file` on each CSV file in order,
concatenating the produced documents and aborting on the first error. -/
def csvDocs : List SrcFile → Except String (List Document)
  | [] => .ok []
  | f :: rest =>
      match process_csv_file f.path f.readCsv with
      | .error e => .error e
      | .ok ds =>
          match csvDocs rest with
          | .error e => .error e
          | .ok rest' => .ok (ds ++ rest')

/-- Shallow embedding of `get_file_documents`
(`app/engine/loaders/file.py`): partitions the walked files into CSV and
non-CSV by extension, extracts the non-CSV files through
`SimpleDirectoryReader` and then each CSV through `process_csv_file`, and
logs and re-raises the first error — there is no partial result. -/
def get_file_documents (files : List SrcFile) : Except String (List Document) :=
  let csv_files := files.filter (fun f => f.isCsv)
  let all_files := files.filter (fun f => !f.isCsv)
  match readerDocs all_files with
  | .error e => .error e
  | .ok docs =>
      match csvDocs csv_files with
      | .error e => .error e
      | .ok csvDs => .ok (docs ++ csvDs)

/-- Whether the route `get_file_documents` selects for this file fails on
it. -/
def SrcFile.fails (f : SrcFile) : Bool :=
  if f.isCsv then f.readCsv.isOk == false else f.readGeneric.isOk == false

/-- A tool descriptor as seen by the agent, identified by its registered
name and origin. -/
inductive Tool where
  | venueQuery
  | generalQuery
  | bingSearch
  | tripadvisorReviews
  | chinchin (name : String)
  | configured (name : String)
deriving Repr, DecidableEq

/-- `get_tools` of `app/engine/tools/tripadvisor.py`: the one reviews
tool. -/
def tripadvisorToolList : List Tool := [.tripadvisorReviews]

/-- `get_tools` of `app/engine/tools/bing_search.py`: the one web-search
tool. -/
def bingToolList : List Tool := [.bingSearch]

/-- `get_tools` of `app/engine/tools/chinchin_api.py`: the venue, menu and
reservation tools, in registration order. -/
def chinchinToolList : List Tool :=
  [.chinchin "search_venues_by_occasion",
   .chinchin "search_venues_by_name",
   .chinchin "get_occasion_suggestions",
   .chinchin "get_venue_menu",
   .chinchin "search_menu_items",
   .chinchin "get_menu_stats",
   .chinchin "get_price_aggregations",
   .chinchin "make_reservation",
   .chinchin "get_venue_reservations",
   .chinchin "update_reservation",
   .chinchin "cancel_reservation"]

/-- Which persisted indices exist on disk (`os.path.exists` on each
index type's storage directory, consulted by `get_index`). -/
structure IndexEnv where
  venueIndexPresent : Bool
  generalIndexPresent : Bool
deriving Repr, DecidableEq

/-- `get_venue_query_tool` (`app/engine/tools/query_engine.py`): `None`
when the venue index is absent, otherwise the venue query tool. -/
def get_venue_query_tool (env : IndexEnv) : Option Tool :=
  if env.venueIndexPresent then some .venueQuery else none

/-- `get_general_query_tool`: `None` when the general index is absent,
otherwise the general query tool. -/
def get_general_query_tool (env : IndexEnv) : Option Tool :=
  if env.generalIndexPresent then some .generalQuery else none

/-- Shallow embedding of `get_all_query_tools`
(`app/engine/tools/query_engine.py`).  The venue-query-tool block is
commented out in the source (marked "Temporarily disabled venue query
tool"), so only the general query tool is ever appended, followed by the
Bing and TripAdvisor adapter tools. -/
def get_all_query_tools (env : IndexEnv) : List Tool :=
  let tools : List Tool := []
  let tools :=
    match get_general_query_tool env with
    | some t => tools ++ [t]
    | none => tools
  let tools := tools ++ bingToolList
  tools ++ tripadvisorToolList

/-- The flat tool list assembled by `get_chat_engine`
(`app/engine/engine.py`): the query tools, then the TripAdvisor tools
(again), the Chinchin API tools and the additionally configured tools
(`ToolFactory.from_env()`, supplied here as the `configured` argument). -/
def get_chat_engine_tools (env : IndexEnv) (configured : List Tool) : List Tool :=
  get_all_query_tools env ++ tripadvisorToolList ++ chinchinToolList ++ configured

/-!  ## Theorems -/

/-- C10: `get_tripadvisor_reviews` is total — for every input it returns a
`TripAdvisorResponse` and never lets an exception propagate; the returned
response always carries the input `location_id` and a `total_reviews`
equal to the length of its `reviews` list, and on every non-success path
(malformed ID, missing API key, HTTP error, transport failure, unexpected
error) it is the empty response (no reviews, zero total, zero average). -/
theorem tripadvisor_total_and_empty_shape :
    ∀ (location_id : String) (limit : Int) (apiKey : Option String)
      (http : HttpOutcome (List RawReview)),
    ∃ resp : TripAdvisorResponse,
      (get_tripadvisor_reviews location_id limit apiKey http).outcome = PyOutcome.ok resp ∧
      resp.location_id = location_id ∧
      resp.total_reviews = some ((resp.reviews.length : Nat) : Int) ∧
      ((pyIsDigit location_id = false ∨ location_id.length < 5 ∨ 10 < location_id.length ∨
          pyFalsyStr apiKey = true ∨ http.isSuccess = false) →
        resp = emptyTAResponse location_id) := by
  intro id limit key http
  unfold get_tripadvisor_reviews
  cases h1 : pyIsDigit id with
  | false =>
      exact ⟨emptyTAResponse id, by simp, rfl, rfl, fun _ => rfl⟩
  | true =>
      by_cases h2 : (id.length < 5 || id.length > 10) = true
      · refine ⟨emptyTAResponse id, ?_, rfl, rfl, fun _ => rfl⟩
        simp [h2]
      · cases h3 : pyFalsyStr key with
        | true =>
            refine ⟨emptyTAResponse id, ?_, rfl, rfl, fun _ => rfl⟩
            simp [h2, h3]
        | false =>
            cases http with
            | success reviews_data =>
                rcases hpr : processReviews reviews_data with ⟨rs, tot, ls⟩
                refine ⟨{ location_id := id, reviews := rs,
                          average_rating := some (round1
                            (if rs.isEmpty then 0 else (tot : ℚ) / (rs.length : ℚ))),
                          total_reviews := some ((rs.length : Nat) : Int) }, ?_, rfl, rfl, ?_⟩
                · simp [h2, h3, hpr]
                · intro hdis
                  rcases hdis with h | h | h | h | h
                  · cases h
                  · exact absurd (by simp [h]) h2
                  · exact absurd (by simp [h]) h2
                  · cases h
                  · simp [HttpOutcome.isSuccess] at h
            | httpError status msg =>
                refine ⟨emptyTAResponse id, ?_, rfl, rfl, fun _ => rfl⟩
                simp [h2, h3]
            | transportError msg =>
                refine ⟨emptyTAResponse id, ?_, rfl, rfl, fun _ => rfl⟩
                simp [h2, h3]
            | otherError msg =>
                refine ⟨emptyTAResponse id, ?_, rfl, rfl, fun _ => rfl⟩
                simp [h2, h3]

/-- Witness for C10 at a concrete input: a well-formed ID with the API key
absent. -/
theorem tripadvisor_total_witness :
    ∃ resp : TripAdvisorResponse,
      (get_tripadvisor_reviews "12345" 5 none (HttpOutcome.success [])).outcome =
        PyOutcome.ok resp ∧
      resp.location_id = "12345" ∧
      resp.total_reviews = some ((resp.reviews.length : Nat) : Int) ∧
      ((pyIsDigit "12345" = false ∨ ("12345" : String).length < 5 ∨
          10 < ("12345" : String).length ∨
          pyFalsyStr none = true ∨
          (HttpOutcome.success ([] : List RawReview)).isSuccess = false) →
        resp = emptyTAResponse "12345") :=
  tripadvisor_total_and_empty_shape "12345" 5 none (HttpOutcome.success [])

/-- The two validation log messages differ for every location ID (they
differ at character 23: `format` vs `length`). -/
theorem invalidFormatMsg_ne_invalidLengthMsg (id : String) :
    invalidFormatMsg id ≠ invalidLengthMsg id := by
  intro h
  have hd := congrArg String.data h
  rw [invalidFormatMsg, invalidLengthMsg] at hd
  simp only [String.data_append, List.append_assoc] at hd
  have h24 := congrArg (List.take 24) hd
  rw [List.take_append_of_le_length (by decide),
    List.take_append_of_le_length (by decide)] at h24
  exact absurd h24 (by decide)

/-- C1 (counterexample): on the malformed, non-numeric ID `"abc"` the
reviews adapter does not raise any synchronous validation error — it
returns the empty response (the claim asserts a raise). -/
theorem tripadvisor_validation_no_raise_counterexample :
    pyIsDigit "abc" = false ∧
    (get_tripadvisor_reviews "abc" 5 (some "key") (HttpOutcome.success [])).networkCall
      = false ∧
    ((get_tripadvisor_reviews "abc" 5 (some "key") (HttpOutcome.success [])).outcome).raises
      = false ∧
    (get_tripadvisor_reviews "abc" 5 (some "key") (HttpOutcome.success [])).outcome =
      PyOutcome.ok (emptyTAResponse "abc") := by
  refine ⟨by decide, by decide, by decide, by decide⟩

/-- C1 (amended): for every malformed `location_id` (non-numeric, or
numeric with fewer than 5 or more than 10 digits) the reviews adapter
rejects the call before issuing any network request and logs a validation
error message that distinguishes the two cases, but it returns the empty
response instead of raising. -/
theorem tripadvisor_validation_rejects_before_network :
    ∀ (location_id : String) (limit : Int) (apiKey : Option String)
      (http : HttpOutcome (List RawReview)),
    pyIsDigit location_id = false ∨ location_id.length < 5 ∨ 10 < location_id.length →
    (get_tripadvisor_reviews location_id limit apiKey http).networkCall = false ∧
    ((get_tripadvisor_reviews location_id limit apiKey http).outcome).raises = false ∧
    (get_tripadvisor_reviews location_id limit apiKey http).outcome =
      PyOutcome.ok (emptyTAResponse location_id) ∧
    (get_tripadvisor_reviews location_id limit apiKey http).logs =
      [if pyIsDigit location_id = false then invalidFormatMsg location_id
       else invalidLengthMsg location_id] ∧
    invalidFormatMsg location_id ≠ invalidLengthMsg location_id := by
  intro id limit key http hmal
  cases h1 : pyIsDigit id with
  | false =>
      refine ⟨?_, ?_, ?_, ?_, invalidFormatMsg_ne_invalidLengthMsg id⟩ <;>
        simp [get_tripadvisor_reviews, h1, PyOutcome.raises]
  | true =>
      have hlen : (decide (id.length < 5) || decide (id.length > 10)) = true := by
        rcases hmal with h | h | h
        · rw [h1] at h; cases h
        · simp [h]
        · simp [h]
      refine ⟨?_, ?_, ?_, ?_, invalidFormatMsg_ne_invalidLengthMsg id⟩ <;>
        simp [get_tripadvisor_reviews, h1, hlen, PyOutcome.raises]

/-- Witness for the amended C1 at the concrete numeric but too-short ID
`"123"`. -/
theorem tripadvisor_validation_rejects_witness :
    (get_tripadvisor_reviews "123" 5 (some "key") (HttpOutcome.success [])).networkCall
      = false ∧
    ((get_tripadvisor_reviews "123" 5 (some "key") (HttpOutcome.success [])).outcome).raises
      = false ∧
    (get_tripadvisor_reviews "123" 5 (some "key") (HttpOutcome.success [])).outcome =
      PyOutcome.ok (emptyTAResponse "123") ∧
    (get_tripadvisor_reviews "123" 5 (some "key") (HttpOutcome.success [])).logs =
      [if pyIsDigit "123" = false then invalidFormatMsg "123"
       else invalidLengthMsg "123"] ∧
    invalidFormatMsg "123" ≠ invalidLengthMsg "123" :=
  tripadvisor_validation_rejects_before_network "123" 5 (some "key")
    (HttpOutcome.success []) (Or.inr (Or.inl (by decide)))

/-- C6 (counterexample): with the API key absent and a well-formed ID, the
reviews adapter does not fail with a raised configuration error — it
degrades to the empty-looking response (the claim asserts both adapters
raise). -/
theorem tripadvisor_missing_key_no_raise_counterexample :
    pyFalsyStr none = true ∧ pyIsDigit "12345" = true ∧
    ((get_tripadvisor_reviews "12345" 5 none (HttpOutcome.success [])).outcome).raises
      = false ∧
    (get_tripadvisor_reviews "12345" 5 none (HttpOutcome.success [])).outcome =
      PyOutcome.ok (emptyTAResponse "12345") := by
  refine ⟨by decide, by decide, by decide, by decide⟩

/-- C6 (amended): with the required key absent, the web-search adapter
raises a descriptive configuration error before any network request, while
the reviews adapter logs the descriptive configuration error and returns
the empty response without raising (also before any network request). -/
theorem missing_key_config_error :
    ∀ (query : String) (k : Int) (httpB : HttpOutcome BingJson)
      (location_id : String) (limit : Int) (httpT : HttpOutcome (List RawReview)),
    (bing_search query k none httpB).networkCall = false ∧
    (bing_search query k none httpB).outcome =
      PyOutcome.exn "BING_SEARCH_KEY environment variable is not set" ∧
    (pyIsDigit location_id = true → ¬(location_id.length < 5) → ¬(10 < location_id.length) →
      (get_tripadvisor_reviews location_id limit none httpT).networkCall = false ∧
      (get_tripadvisor_reviews location_id limit none httpT).logs = [missingTAKeyMsg] ∧
      ((get_tripadvisor_reviews location_id limit none httpT).outcome).raises = false ∧
      (get_tripadvisor_reviews location_id limit none httpT).outcome =
        PyOutcome.ok (emptyTAResponse location_id)) := by
  intro q k hb id limit ht
  refine ⟨rfl, rfl, ?_⟩
  intro h1 h2 h3
  have hlen : (decide (id.length < 5) || decide (id.length > 10)) = false := by
    simp [h2, h3]
  refine ⟨?_, ?_, ?_, ?_⟩ <;>
    simp [get_tripadvisor_reviews, h1, hlen, pyFalsyStr, PyOutcome.raises]

/-- Witness for the amended C6 at concrete inputs. -/
theorem missing_key_config_error_witness :
    (bing_search "w" 3 none (HttpOutcome.success ⟨none, none⟩)).outcome =
      PyOutcome.exn "BING_SEARCH_KEY environment variable is not set" ∧
    (get_tripadvisor_reviews "12345" 5 none (HttpOutcome.success [])).logs =
      [missingTAKeyMsg] := by
  have h := missing_key_config_error "w" 3 (HttpOutcome.success ⟨none, none⟩) "12345" 5
    (HttpOutcome.success [])
  exact ⟨h.2.1, (h.2.2 (by decide) (by decide) (by decide)).2.1⟩

/-- C7 (counterexample): the web-search adapter receiving a 401 produces
the auth-classified message, but raises it as an exception instead of
returning it as an error-shaped result (the claim asserts the classified
message is returned, not raised). -/
theorem bing_classified_raise_counterexample :
    (bing_search "test" 3 (some "key") (HttpOutcome.httpError 401 "401 Client Error")).outcome =
      PyOutcome.exn
        "Error performing Bing search: Invalid or expired Bing Search API key. Please check your API key." ∧
    ((bing_search "test" 3 (some "key") (HttpOutcome.httpError 401 "401 Client Error")).outcome).raises
      = true := by
  refine ⟨by decide, by decide⟩

/-- C7 (amended): a 429 response is classified into the rate-limit message
and a 401 into the auth message (never the generic upstream text) in both
adapters; the reviews adapter logs the classified message and returns the
empty response to the caller, while the web-search adapter raises an
exception carrying the classified message. -/
theorem http_error_classification :
    ∀ (location_id : String) (limit : Int) (key : String) (msg : String)
      (query : String) (k : Int),
    pyIsDigit location_id = true → ¬(location_id.length < 5) → ¬(10 < location_id.length) →
    strIsEmpty key = false →
    (get_tripadvisor_reviews location_id limit (some key)
        (HttpOutcome.httpError 429 msg)).logs =
      ["Error fetching TripAdvisor reviews: Rate limit exceeded. Please try again later."] ∧
    (get_tripadvisor_reviews location_id limit (some key)
        (HttpOutcome.httpError 429 msg)).outcome =
      PyOutcome.ok (emptyTAResponse location_id) ∧
    (get_tripadvisor_reviews location_id limit (some key)
        (HttpOutcome.httpError 401 msg)).logs =
      ["Error fetching TripAdvisor reviews: Invalid TripAdvisor API key. Please check your API key."] ∧
    (get_tripadvisor_reviews location_id limit (some key)
        (HttpOutcome.httpError 401 msg)).outcome =
      PyOutcome.ok (emptyTAResponse location_id) ∧
    (bing_search query k (some key) (HttpOutcome.httpError 429 msg)).outcome =
      PyOutcome.exn "Error performing Bing search: Rate limit exceeded. Please try again later." ∧
    (bing_search query k (some key) (HttpOutcome.httpError 401 msg)).outcome =
      PyOutcome.exn
        "Error performing Bing search: Invalid or expired Bing Search API key. Please check your API key." ∧
    ("Rate limit exceeded. Please try again later." : String) ≠
      "Invalid TripAdvisor API key. Please check your API key." := by
  intro id limit key msg q k h1 h2 h3 hk
  have hlen : (decide (id.length < 5) || decide (id.length > 10)) = false := by
    simp [h2, h3]
  have hkey : pyFalsyStr (some key) = false := hk
  refine ⟨?_, ?_, ?_, ?_, ?_, ?_, by decide⟩ <;>
    simp [get_tripadvisor_reviews, bing_search, h1, hlen, hkey]

/-- Witness for the amended C7 at concrete inputs. -/
theorem http_error_classification_witness :
    (get_tripadvisor_reviews "12345" 5 (some "key") (HttpOutcome.httpError 429 "err")).logs =
      ["Error fetching TripAdvisor reviews: Rate limit exceeded. Please try again later."] ∧
    (bing_search "q" 3 (some "key") (HttpOutcome.httpError 401 "err")).outcome =
      PyOutcome.exn
        "Error performing Bing search: Invalid or expired Bing Search API key. Please check your API key." := by
  have h := http_error_classification "12345" 5 "key" "err" "q" 3
    (by decide) (by decide) (by decide) (by decide)
  exact ⟨h.1, h.2.2.2.2.2.1⟩

/-- C2 (counterexample): with both backing indices present, the assembled
tool lists contain no venue query tool, even though `get_venue_query_tool`
would produce one for the present venue index — the venue block of
`get_all_query_tools` is disabled in the source. -/
theorem venue_tool_missing_counterexample :
    get_venue_query_tool ⟨true, true⟩ = some Tool.venueQuery ∧
    Tool.venueQuery ∉ get_all_query_tools ⟨true, true⟩ ∧
    Tool.venueQuery ∉ get_chat_engine_tools ⟨true, true⟩ [] := by
  refine ⟨by decide, by decide, by decide⟩

/-- C2 (amended): agent assembly constructs an index-backed query tool
only for the general index (present exactly when its backing index is),
never a venue query tool — the venue block is disabled — and appends the
external tool adapters after the query tools; `get_chat_engine` further
appends the TripAdvisor, Chinchin and configured tools after them. -/
theorem tool_assembly :
    ∀ (env : IndexEnv) (configured : List Tool),
    Tool.venueQuery ∉ get_all_query_tools env ∧
    (Tool.generalQuery ∈ get_all_query_tools env ↔ env.generalIndexPresent = true) ∧
    get_all_query_tools env =
      (if env.generalIndexPresent then [Tool.generalQuery] else []) ++
        (bingToolList ++ tripadvisorToolList) ∧
    get_chat_engine_tools env configured =
      get_all_query_tools env ++ tripadvisorToolList ++ chinchinToolList ++ configured := by
  intro env configured
  obtain ⟨v, g⟩ := env
  cases v <;> cases g <;>
    exact ⟨by decide, by decide, by decide, rfl⟩

/-- Witness for the amended C2 with both indices present and no
additionally configured tools. -/
theorem tool_assembly_witness :
    Tool.venueQuery ∉ get_all_query_tools ⟨true, true⟩ ∧
    (Tool.generalQuery ∈ get_all_query_tools ⟨true, true⟩ ↔
      (⟨true, true⟩ : IndexEnv).generalIndexPresent = true) ∧
    get_all_query_tools ⟨true, true⟩ =
      (if (⟨true, true⟩ : IndexEnv).generalIndexPresent then [Tool.generalQuery] else []) ++
        (bingToolList ++ tripadvisorToolList) ∧
    get_chat_engine_tools ⟨true, true⟩ [] =
      get_all_query_tools ⟨true, true⟩ ++ tripadvisorToolList ++ chinchinToolList ++ [] :=
  tool_assembly ⟨true, true⟩ []

/-- The in-place-update half of `metaSet` leaves lookups of other keys
unchanged. -/
theorem find?_update_map (m : List (String × MetaVal)) (k k' : String) (v : MetaVal)
    (h : (k' == k) = false) :
    (m.map (fun p => if p.1 == k then (p.1, v) else p)).find? (fun p => p.1 == k') =
      m.find? (fun p => p.1 == k') := by
  induction m with
  | nil => rfl
  | cons x xs ih =>
      rw [List.map_cons, List.find?_cons, List.find?_cons]
      by_cases hx : (x.1 == k) = true
      · have hx' : (x.1 == k') = false := by
          rw [eq_of_beq hx]
          rw [beq_eq_false_iff_ne] at h ⊢
          exact fun e => h e.symm
        rw [if_pos hx]
        simp only [hx']
        exact ih
      · rw [if_neg hx]
        cases hxk : (x.1 == k') with
        | false => simp only [hxk]; exact ih
        | true => simp only [hxk]

/-- The in-place-update half of `metaSet` makes the updated key map to the
new value. -/
theorem find?_update_map_self (m : List (String × MetaVal)) (k : String) (v : MetaVal)
    (h : m.any (fun p => p.1 == k) = true) :
    (((m.map (fun p => if p.1 == k then (p.1, v) else p)).find?
      (fun p => p.1 == k)).map (fun p => p.2)) = some v := by
  induction m with
  | nil => cases h
  | cons x xs ih =>
      rw [List.map_cons, List.find?_cons]
      by_cases hx : (x.1 == k) = true
      · rw [if_pos hx]
        simp [hx]
      · have hxf : (x.1 == k) = false := by simpa using hx
        rw [if_neg hx]
        simp only [hxf]
        rw [List.any_cons, hxf, Bool.false_or] at h
        exact ih h

/-- Updating one key of a metadata map leaves lookups of other keys
unchanged. -/
theorem find?_metaSet_ne (m : List (String × MetaVal)) (k k' : String) (v : MetaVal)
    (h : (k' == k) = false) :
    (metaSet m k v).find? (fun p => p.1 == k') = m.find? (fun p => p.1 == k') := by
  unfold metaSet
  by_cases ha : m.any (fun p => p.1 == k) = true
  · rw [if_pos ha]
    exact find?_update_map m k k' v h
  · rw [if_neg ha, List.find?_append]
    have hone : ([(k, v)].find? (fun p => p.1 == k')) = none := by
      have hkk : (k == k') = false := by
        rw [beq_eq_false_iff_ne] at h ⊢
        exact fun e => h e.symm
      simp [List.find?_cons, hkk]
    rw [hone]
    cases m.find? (fun p => p.1 == k') <;> rfl

/-- After updating a key of a metadata map, looking that key up yields the
new value. -/
theorem find?_metaSet_self (m : List (String × MetaVal)) (k : String) (v : MetaVal) :
    ((metaSet m k v).find? (fun p => p.1 == k)).map (fun p => p.2) = some v := by
  unfold metaSet
  by_cases ha : m.any (fun p => p.1 == k) = true
  · rw [if_pos ha]
    exact find?_update_map_self m k v ha
  · rw [if_neg ha, List.find?_append]
    have hm : m.find? (fun p => p.1 == k) = none := by
      rw [List.find?_eq_none]
      intro x hx hpx
      exact ha (List.any_eq_true.mpr ⟨x, hx, hpx⟩)
    simp [hm, List.find?_cons]

/-- An example row-tagged document. -/
def rowDocEx : Document :=
  { text := "venue row", metadata := [("type", MetaVal.s "row")] }

/-- An example general (non-row) document. -/
def genDocEx : Document :=
  { text := "prose", metadata := [("type", MetaVal.s "text")] }

/-- C3: with no index type specified, `generate_datasource` partitions the
documents by the `type == "row"` tag — the venue index is built from
exactly the row-tagged documents, the general index from exactly the rest,
and no document belongs to both parts. -/
theorem generate_partition :
    ∀ (baseDir : String) (documents : List Document),
    buildFor (generate_datasource baseDir documents none) IndexType.venue =
      (if (documents.filter (fun d => isRowDoc d)).isEmpty then none
       else some (generate_index baseDir
         (documents.filter (fun d => isRowDoc d)) IndexType.venue)) ∧
    buildFor (generate_datasource baseDir documents none) IndexType.general =
      (if (documents.filter (fun d => !isRowDoc d)).isEmpty then none
       else some (generate_index baseDir
         (documents.filter (fun d => !isRowDoc d)) IndexType.general)) ∧
    (∀ d ∈ documents,
      (d ∈ documents.filter (fun d => isRowDoc d) ↔ isRowDoc d = true) ∧
      (d ∈ documents.filter (fun d => !isRowDoc d) ↔ isRowDoc d = false)) ∧
    (∀ d : Document, ¬(d ∈ documents.filter (fun d => isRowDoc d) ∧
      d ∈ documents.filter (fun d => !isRowDoc d))) := by
  intro base docs
  refine ⟨?_, ?_, ?_, ?_⟩
  · by_cases hv : (docs.filter (fun d => isRowDoc d)).isEmpty = true
    · by_cases hg : (docs.filter (fun d => !isRowDoc d)).isEmpty = true <;>
        simp [generate_datasource, buildFor, hv, hg]
    · simp [generate_datasource, buildFor, hv]
  · by_cases hv : (docs.filter (fun d => isRowDoc d)).isEmpty = true <;>
      by_cases hg : (docs.filter (fun d => !isRowDoc d)).isEmpty = true <;>
        simp [generate_datasource, buildFor, hv, hg]
  · intro d hd
    constructor <;> simp [List.mem_filter, hd]
  · intro d hdd
    rw [List.mem_filter, List.mem_filter] at hdd
    have h1 := hdd.1.2
    have h2 := hdd.2.2
    rw [h1] at h2
    cases h2

/-- Witness for C3 on a concrete two-document list with one row-tagged and
one general document. -/
theorem generate_partition_witness :
    buildFor (generate_datasource "storage" [rowDocEx, genDocEx] none) IndexType.venue =
      some (generate_index "storage" [rowDocEx] IndexType.venue) ∧
    buildFor (generate_datasource "storage" [rowDocEx, genDocEx] none) IndexType.general =
      some (generate_index "storage" [genDocEx] IndexType.general) ∧
    (rowDocEx ∈ [rowDocEx, genDocEx].filter (fun d => isRowDoc d) ↔
      isRowDoc rowDocEx = true) ∧
    ¬(rowDocEx ∈ [rowDocEx, genDocEx].filter (fun d => isRowDoc d) ∧
      rowDocEx ∈ [rowDocEx, genDocEx].filter (fun d => !isRowDoc d)) := by
  have h := generate_partition "storage" [rowDocEx, genDocEx]
  refine ⟨?_, ?_, (h.2.2.1 rowDocEx (by decide)).1, h.2.2.2 rowDocEx⟩
  · rw [h.1]; decide
  · rw [h.2.1]; decide

/-- C9 (counterexample): `generate_index` modifies the metadata mapping of
the documents it consumes — it adds a `private` key that the loader never
set, so the consumed document differs from the created one. -/
theorem generate_index_mutates_counterexample :
    (generate_index "storage" [rowDocEx] IndexType.venue).docs =
      [{ text := "venue row",
         metadata := [("type", MetaVal.s "row"), ("private", MetaVal.s "false")] }] ∧
    (generate_index "storage" [rowDocEx] IndexType.venue).docs ≠ [rowDocEx] ∧
    metaGet rowDocEx "private" = none := by
  refine ⟨by decide, by decide, by decide⟩

/-- C9 (amended): index construction preserves each consumed document's
text and every metadata key except `private`, which `generate_index` sets
to `"false"` on every document before building the index. -/
theorem generate_index_metadata :
    ∀ (baseDir : String) (docs : List Document) (t : IndexType),
    ((generate_index baseDir docs t).docs).length = docs.length ∧
    ∀ (i : Nat) (h1 : i < ((generate_index baseDir docs t).docs).length)
      (h2 : i < docs.length),
      (((generate_index baseDir docs t).docs).get ⟨i, h1⟩).text =
        (docs.get ⟨i, h2⟩).text ∧
      metaGet (((generate_index baseDir docs t).docs).get ⟨i, h1⟩) "private" =
        some (MetaVal.s "false") ∧
      ∀ (k : String), k ≠ "private" →
        metaGet (((generate_index baseDir docs t).docs).get ⟨i, h1⟩) k =
          metaGet (docs.get ⟨i, h2⟩) k := by
  intro base docs t
  refine ⟨by simp [generate_index], ?_⟩
  intro i h1 h2
  refine ⟨?_, ?_, ?_⟩
  · simp [generate_index]
  · simp only [generate_index, List.get_eq_getElem, List.getElem_map, metaGet]
    exact find?_metaSet_self _ _ _
  · intro k hk
    simp only [generate_index, List.get_eq_getElem, List.getElem_map, metaGet]
    rw [find?_metaSet_ne]
    exact beq_eq_false_iff_ne.mpr hk

/-- Witness for the amended C9 on a concrete document. -/
theorem generate_index_metadata_witness :
    metaGet (((generate_index "storage" [rowDocEx] IndexType.venue).docs).get
      ⟨0, by decide⟩) "private" = some (MetaVal.s "false") ∧
    metaGet (((generate_index "storage" [rowDocEx] IndexType.venue).docs).get
      ⟨0, by decide⟩) "type" = metaGet ([rowDocEx].get ⟨0, by decide⟩) "type" := by
  have h := (generate_index_metadata "storage" [rowDocEx] IndexType.venue).2 0
    (by decide) (by decide)
  exact ⟨h.2.1, h.2.2 "type" (by decide)⟩

/-- The metadata of a loader row document always carries the `type`,
`src` and `idx` keys set by `process_csv_file`, whatever the frame's
columns and the row's cells. -/
theorem processRow_meta (columns : List String) (file_name : String) (idx : Nat)
    (row : List String) :
    metaGet (processRow columns file_name idx row) "type" = some (MetaVal.s "row") ∧
    metaGet (processRow columns file_name idx row) "src" = some (MetaVal.s file_name) ∧
    metaGet (processRow columns file_name idx row) "idx" =
      some (MetaVal.i (idx : Int)) := by
  by_cases hTid : (columns.contains "TripAdvisor ID" &&
      !strIsEmpty (pyStrip (cellStr columns row "TripAdvisor ID"))) = true <;>
    cases hv : findVenueName columns row venueNameCols with
  | _ =>
      refine ⟨?_, ?_, ?_⟩ <;>
      · simp only [processRow, metaGet, hTid, hv, Bool.false_eq_true, if_true, if_false]
        rfl

/-- C4: for every tabular frame, `process_csv_file` succeeds and produces
exactly one `Document` per data row, each tagged `type == "row"`, carrying
the source file name under `src`, and carrying its zero-based position as
the `idx` metadata — so the row index is strictly increasing across the
produced documents. -/
theorem csv_rows_documents :
    ∀ (file_path : String) (df : CsvFrame),
    process_csv_file file_path (Except.ok df) =
      Except.ok (rowDocuments (fileNameOf file_path) df) ∧
    ∀ (file_name : String),
    (rowDocuments file_name df).length = df.rows.length ∧
    ∀ (i : Nat) (h : i < (rowDocuments file_name df).length),
      metaGet ((rowDocuments file_name df).get ⟨i, h⟩) "type" =
        some (MetaVal.s "row") ∧
      metaGet ((rowDocuments file_name df).get ⟨i, h⟩) "src" =
        some (MetaVal.s file_name) ∧
      metaGet ((rowDocuments file_name df).get ⟨i, h⟩) "idx" =
        some (MetaVal.i (i : Int)) := by
  intro path df
  refine ⟨rfl, ?_⟩
  intro name
  refine ⟨by simp [rowDocuments], ?_⟩
  intro i h
  have hlen : i < df.rows.length := by
    simpa [rowDocuments, List.enum_length] using h
  have hget : (rowDocuments name df).get ⟨i, h⟩ =
      processRow df.columns name i (df.rows.get ⟨i, hlen⟩) := by
    simp [rowDocuments, List.get_eq_getElem, List.getElem_map, List.getElem_enum]
  rw [hget]
  exact processRow_meta df.columns name i _

/-- Witness for C4 on a concrete one-column, two-row frame. -/
theorem csv_rows_documents_witness :
    (rowDocuments "venues" ⟨["Name"], [["a"], ["b"]]⟩).length =
      (⟨["Name"], [["a"], ["b"]]⟩ : CsvFrame).rows.length ∧
    metaGet ((rowDocuments "venues" ⟨["Name"], [["a"], ["b"]]⟩).get ⟨1, by decide⟩)
      "idx" = some (MetaVal.i 1) ∧
    metaGet ((rowDocuments "venues" ⟨["Name"], [["a"], ["b"]]⟩).get ⟨1, by decide⟩)
      "type" = some (MetaVal.s "row") := by
  have h := csv_rows_documents "data/venues.csv" ⟨["Name"], [["a"], ["b"]]⟩
  have h2 := (h.2 "venues").2 1 (by decide)
  exact ⟨(h.2 "venues").1, h2.2.2, h2.1⟩

/-- The reader pass succeeds exactly when every non-CSV file extracts. -/
theorem readerDocs_isOk (fs : List SrcFile) :
    (readerDocs fs).isOk = fs.all (fun f => f.readGeneric.isOk) := by
  induction fs with
  | nil => rfl
  | cons f rest ih =>
      cases hf : f.readGeneric with
      | error e => simp [readerDocs, hf, Except.isOk, Except.toBool]
      | ok ds =>
          cases hr : readerDocs rest with
          | error e =>
              rw [hr] at ih
              simp only [readerDocs, hf, hr, Except.isOk, Except.toBool, List.all_cons] at ih ⊢
              simp [← ih]
          | ok ds' =>
              rw [hr] at ih
              simp only [readerDocs, hf, hr, Except.isOk, Except.toBool, List.all_cons] at ih ⊢
              simp [← ih]

/-- The CSV pass succeeds exactly when every CSV file parses. -/
theorem csvDocs_isOk (fs : List SrcFile) :
    (csvDocs fs).isOk = fs.all (fun f => f.readCsv.isOk) := by
  induction fs with
  | nil => rfl
  | cons f rest ih =>
      cases hf : f.readCsv with
      | error e => simp [csvDocs, process_csv_file, hf, Except.isOk, Except.toBool]
      | ok df =>
          cases hr : csvDocs rest with
          | error e =>
              rw [hr] at ih
              simp only [csvDocs, process_csv_file, hf, hr, Except.isOk, Except.toBool,
                List.all_cons] at ih ⊢
              simp [← ih]
          | ok ds' =>
              rw [hr] at ih
              simp only [csvDocs, process_csv_file, hf, hr, Except.isOk, Except.toBool,
                List.all_cons] at ih ⊢
              simp [← ih]

/-- `get_file_documents` succeeds exactly when both passes succeed. -/
theorem get_file_documents_isOk (files : List SrcFile) :
    (get_file_documents files).isOk =
      ((readerDocs (files.filter (fun f => !f.isCsv))).isOk &&
       (csvDocs (files.filter (fun f => f.isCsv))).isOk) := by
  unfold get_file_documents
  cases h1 : readerDocs (files.filter (fun f => !f.isCsv)) with
  | error e => simp [h1, Except.isOk, Except.toBool]
  | ok ds =>
      cases h2 : csvDocs (files.filter (fun f => f.isCsv)) <;>
        simp [h1, h2, Except.isOk, Except.toBool]

/-- C8: loading is atomic — if the extraction route of any file in the
directory fails, `get_file_documents` raises (returns an error) rather
than a partial document set, and conversely a successful result implies no
file failed. -/
theorem load_is_atomic :
    ∀ (files : List SrcFile),
    ((∃ f ∈ files, f.fails = true) → ∃ e, get_file_documents files = Except.error e) ∧
    (∀ docs, get_file_documents files = Except.ok docs →
      ∀ f ∈ files, f.fails = false) := by
  intro files
  constructor
  · rintro ⟨f, hf, hfail⟩
    have hnotok : (get_file_documents files).isOk = false := by
      rw [get_file_documents_isOk, readerDocs_isOk, csvDocs_isOk]
      unfold SrcFile.fails at hfail
      by_cases hc : f.isCsv = true
      · rw [if_pos hc] at hfail
        have hcsv : f.readCsv.isOk = false := by simpa using hfail
        have hall : ((files.filter (fun f => f.isCsv)).all
            (fun f => f.readCsv.isOk)) = false := by
          apply List.all_eq_false.mpr
          exact ⟨f, List.mem_filter.mpr ⟨hf, hc⟩, by simp [hcsv]⟩
        simp [hall]
      · rw [if_neg hc] at hfail
        have hgen : f.readGeneric.isOk = false := by simpa using hfail
        have hmem : f ∈ files.filter (fun f => !f.isCsv) :=
          List.mem_filter.mpr ⟨hf, by simpa using hc⟩
        have hall : ((files.filter (fun f => !f.isCsv)).all
            (fun f => f.readGeneric.isOk)) = false := by
          apply List.all_eq_false.mpr
          exact ⟨f, hmem, by simp [hgen]⟩
        simp [hall]
    cases hge : get_file_documents files with
    | error e => exact ⟨e, rfl⟩
    | ok ds => rw [hge] at hnotok; cases hnotok
  · intro docs hok f hf
    have hisok : (get_file_documents files).isOk = true := by
      rw [hok]; rfl
    rw [get_file_documents_isOk, Bool.and_eq_true, readerDocs_isOk,
      csvDocs_isOk] at hisok
    obtain ⟨hr, hc⟩ := hisok
    unfold SrcFile.fails
    by_cases hcf : f.isCsv = true
    · rw [if_pos hcf]
      have hok1 := List.all_eq_true.mp hc f (List.mem_filter.mpr ⟨hf, hcf⟩)
      simp [hok1]
    · rw [if_neg hcf]
      have hok2 := List.all_eq_true.mp hr f
        (List.mem_filter.mpr ⟨hf, by simpa using hcf⟩)
      simp [hok2]

/-- An unparseable CSV file. -/
def badCsvFile : SrcFile :=
  { path := "data/venues.csv", readCsv := .error "parse error", readGeneric := .ok [] }

/-- A non-CSV file whose generic extraction succeeds. -/
def goodTxtFile : SrcFile :=
  { path := "data/notes.txt", readCsv := .error "not a csv",
    readGeneric := .ok [genDocEx] }

/-- Witness for C8: one good file plus one malformed CSV file abort the
whole load. -/
theorem load_is_atomic_witness :
    badCsvFile.fails = true ∧
    (∃ e, get_file_documents [goodTxtFile, badCsvFile] = Except.error e) := by
  refine ⟨by decide, ?_⟩
  exact (load_is_atomic [goodTxtFile, badCsvFile]).1
    ⟨badCsvFile, by decide, by decide⟩

/-- A cache hit returns the cached context and leaves the state
unchanged. -/
theorem get_storage_context_hit (p : String) (now : Nat) (st : TTLCacheState)
    (e : String × StorageContext × Nat)
    (h : st.entries.find?
      (fun e => e.1 == storageContextKey p && entryLive now e) = some e) :
    get_storage_context p now st = (e.2.1, st) := by
  simp only [get_storage_context]
  rw [h]

/-- A cache miss constructs a fresh context and inserts it, after dropping
expired entries and evicting the oldest entries if the cache is full. -/
theorem get_storage_context_miss (p : String) (now : Nat) (st : TTLCacheState)
    (h : st.entries.find?
      (fun e => e.1 == storageContextKey p && entryLive now e) = none) :
    get_storage_context p now st =
      ({ persistDir := p, createdAt := now },
       { entries :=
          (if cacheMaxsize ≤ (st.entries.filter (entryLive now)).length then
            (st.entries.filter (entryLive now)).drop
              ((st.entries.filter (entryLive now)).length + 1 - cacheMaxsize)
          else st.entries.filter (entryLive now)) ++
          [(storageContextKey p, { persistDir := p, createdAt := now }, now)] }) := by
  simp only [get_storage_context]
  rw [h]

/-- C5: starting from any cache state holding no entry for the path, the
first call loads a fresh context; a second call for the same path within
the expiry window returns the same context with the state unchanged (no
reload), while a second call at or past expiry constructs a fresh context;
and every call preserves the bound of `maxsize` entries. -/
theorem storage_context_cache :
    ∀ (p : String) (t₁ t₂ : Nat) (st : TTLCacheState),
    (∀ e ∈ st.entries, e.1 ≠ storageContextKey p) →
    t₁ ≤ t₂ →
    ((get_storage_context p t₁ st).1 =
        { persistDir := p, createdAt := t₁ } ∧
      (t₂ < t₁ + cacheTTL →
        (get_storage_context p t₂ (get_storage_context p t₁ st).2).1 =
          (get_storage_context p t₁ st).1 ∧
        (get_storage_context p t₂ (get_storage_context p t₁ st).2).2 =
          (get_storage_context p t₁ st).2) ∧
      (t₁ + cacheTTL ≤ t₂ →
        (get_storage_context p t₂ (get_storage_context p t₁ st).2).1 =
          { persistDir := p, createdAt := t₂ })) ∧
    (∀ (q : String) (now : Nat) (st' : TTLCacheState),
      st'.entries.length ≤ cacheMaxsize →
      ((get_storage_context q now st').2).entries.length ≤ cacheMaxsize) := by
  intro p t₁ t₂ st hmiss hle
  have hfind1 : st.entries.find?
      (fun e => e.1 == storageContextKey p && entryLive t₁ e) = none := by
    rw [List.find?_eq_none]
    intro e he
    have hb : (e.1 == storageContextKey p) = false :=
      beq_eq_false_iff_ne.mpr (hmiss e he)
    simp [hb]
  have h1 := get_storage_context_miss p t₁ st hfind1
  have hafterkeys : ∀ e ∈ (if cacheMaxsize ≤ (st.entries.filter (entryLive t₁)).length then
        (st.entries.filter (entryLive t₁)).drop
          ((st.entries.filter (entryLive t₁)).length + 1 - cacheMaxsize)
      else st.entries.filter (entryLive t₁)),
      e.1 ≠ storageContextKey p := by
    intro e he
    have hmem : e ∈ st.entries.filter (entryLive t₁) := by
      by_cases hc : cacheMaxsize ≤ (st.entries.filter (entryLive t₁)).length
      · rw [if_pos hc] at he
        exact List.mem_of_mem_drop he
      · rw [if_neg hc] at he
        exact he
    exact hmiss e (List.mem_filter.mp hmem).1
  refine ⟨⟨by rw [h1], ?_, ?_⟩, ?_⟩
  · intro hlt
    have hfind2 : ((get_storage_context p t₁ st).2).entries.find?
        (fun e => e.1 == storageContextKey p && entryLive t₂ e) =
        some (storageContextKey p, { persistDir := p, createdAt := t₁ }, t₁) := by
      rw [h1, List.find?_append]
      have hnone : (List.find?
          (fun e => e.1 == storageContextKey p && entryLive t₂ e)
          (if cacheMaxsize ≤ (st.entries.filter (entryLive t₁)).length then
            (st.entries.filter (entryLive t₁)).drop
              ((st.entries.filter (entryLive t₁)).length + 1 - cacheMaxsize)
          else st.entries.filter (entryLive t₁))) = none := by
        rw [List.find?_eq_none]
        intro e he
        have hb : (e.1 == storageContextKey p) = false :=
          beq_eq_false_iff_ne.mpr (hafterkeys e he)
        simp [hb]
      rw [hnone]
      simp [List.find?_cons, entryLive, hlt]
    have h2 := get_storage_context_hit p t₂ (get_storage_context p t₁ st).2 _ hfind2
    rw [h2, h1]
    exact ⟨rfl, rfl⟩
  · intro hexp
    have hfind2 : ((get_storage_context p t₁ st).2).entries.find?
        (fun e => e.1 == storageContextKey p && entryLive t₂ e) = none := by
      rw [h1, List.find?_append]
      have hnone : (List.find?
          (fun e => e.1 == storageContextKey p && entryLive t₂ e)
          (if cacheMaxsize ≤ (st.entries.filter (entryLive t₁)).length then
            (st.entries.filter (entryLive t₁)).drop
              ((st.entries.filter (entryLive t₁)).length + 1 - cacheMaxsize)
          else st.entries.filter (entryLive t₁))) = none := by
        rw [List.find?_eq_none]
        intro e he
        have hb : (e.1 == storageContextKey p) = false :=
          beq_eq_false_iff_ne.mpr (hafterkeys e he)
        simp [hb]
      rw [hnone]
      have hdead : entryLive t₂ (storageContextKey p,
          { persistDir := p, createdAt := t₁ }, t₁) = false := by
        simp only [entryLive]
        simpa using Nat.not_lt.mpr hexp
      simp [List.find?_cons, hdead]
    rw [get_storage_context_miss p t₂ _ hfind2]
  · intro q now st' hb
    cases hf : st'.entries.find?
        (fun e => e.1 == storageContextKey q && entryLive now e) with
    | some e =>
        rw [get_storage_context_hit q now st' e hf]
        exact hb
    | none =>
        rw [get_storage_context_miss q now st' hf]
        have hfl : (st'.entries.filter (entryLive now)).length ≤ st'.entries.length :=
          List.length_filter_le _ _
        simp only [cacheMaxsize] at hb ⊢
        by_cases hc : (20 : Nat) ≤ (st'.entries.filter (entryLive now)).length
        · rw [if_pos hc]
          simp only [List.length_append, List.length_drop, List.length_singleton]
          omega
        · rw [if_neg hc]
          simp only [List.length_append, List.length_singleton]
          omega

/-- Witness for C5 starting from the empty cache, with a hit at 299
seconds and an expiry check at 300 seconds. -/
theorem storage_context_cache_witness :
    ((get_storage_context "storage/general" 0 ⟨[]⟩).1 =
        { persistDir := "storage/general", createdAt := 0 } ∧
      (299 < 0 + cacheTTL →
        (get_storage_context "storage/general" 299
            (get_storage_context "storage/general" 0 ⟨[]⟩).2).1 =
          (get_storage_context "storage/general" 0 ⟨[]⟩).1 ∧
        (get_storage_context "storage/general" 299
            (get_storage_context "storage/general" 0 ⟨[]⟩).2).2 =
          (get_storage_context "storage/general" 0 ⟨[]⟩).2) ∧
      (0 + cacheTTL ≤ 299 →
        (get_storage_context "storage/general" 299
            (get_storage_context "storage/general" 0 ⟨[]⟩).2).1 =
          { persistDir := "storage/general", createdAt := 299 })) ∧
    (∀ (q : String) (now : Nat) (st' : TTLCacheState),
      st'.entries.length ≤ cacheMaxsize →
      ((get_storage_context q now st').2).entries.length ≤ cacheMaxsize) :=
  storage_context_cache "storage/general" 0 299 ⟨[]⟩
    (by intro e he; cases he) (by decide)

end HeiDemo
